import Mathlib

/-!
Shallow embedding of the social-media-post-generator tutorial
(`Tutorial_notebook.ipynb`): the post generator `generate_post` and the
feedback relay `send_feedback_to_phoenix`, together with the payload and
hex-identifier formatting they perform.  External effects (the chat
completion call and the HTTP POST) are passed in as explicit environment
functions; the span is modelled as a record of the attributes this code
sets on it.
-/

namespace PhoenixTutorial

/-! ## Hex formatting: Python `format(n, '016x')` -/

/-- The sixteen lowercase hexadecimal digit characters. -/
def hexDigits : List Char := "0123456789abcdef".data

/-- Big-endian base-16 digit characters of `n`; `fuel` bounds the recursion
depth and is taken `≥` the number of digits by `natToHex`. -/
def natToHexAux (fuel n : Nat) : List Char :=
  match fuel with
  | 0 => []
  | f + 1 => if n = 0 then [] else natToHexAux f (n / 16) ++ [Nat.digitChar (n % 16)]

/-- Lowercase hexadecimal digit list of `n` (empty for `n = 0`). -/
def natToHex (n : Nat) : List Char :=
  natToHexAux n n

/-- Python's `format(n, '016x')`: lowercase hexadecimal, left-padded with
`'0'` to at least 16 characters. -/
def format016x (n : Nat) : String :=
  ⟨List.replicate (16 - (natToHex n).length) '0' ++ natToHex n⟩

/-! ## Data model of the completion call and the span -/

/-- A role-tagged chat message sent to the completion API. -/
structure ChatMessage where
  role : String
  content : String
deriving DecidableEq, Repr

/-- The request `client.chat.completions.create` receives. -/
structure ChatRequest where
  model : String
  messages : List ChatMessage
deriving DecidableEq, Repr

/-- `response.choices[i].message` of the completion API. -/
structure CompletionMessage where
  content : String
deriving DecidableEq, Repr

/-- One element of `response.choices`. -/
structure CompletionChoice where
  message : CompletionMessage
deriving DecidableEq, Repr

/-- The completion API response object. -/
structure CompletionResponse where
  choices : List CompletionChoice
deriving DecidableEq, Repr

/-- The tracing span as this code affects it: its name, the attributes
passed at `start_as_current_span`, and the attributes set afterwards via
`span.set_attribute`, in order. -/
structure SpanRecord where
  name : String
  creationAttributes : List (String × String)
  setAttributes : List (String × String)
deriving DecidableEq, Repr

/-- Environment of `generate_post`: the outcome of the completion call
(`Except.error e` models a raised exception with message `str(e)`), and the
64-bit `span_context.span_id` value the tracer mints for the span. -/
structure GenEnv where
  create : ChatRequest → Except String CompletionResponse
  span_id_val : Nat

/-! ## Source constants -/

/-- `SpanAttributes.OPENINFERENCE_SPAN_KIND`. -/
def OPENINFERENCE_SPAN_KIND : String := "openinference.span.kind"

/-- `SpanAttributes.INPUT_VALUE`. -/
def INPUT_VALUE : String := "input.value"

/-- `SpanAttributes.OUTPUT_VALUE`. -/
def OUTPUT_VALUE : String := "output.value"

/-- `PROMPT_TEMPLATE.format(product_desc=description)` from the notebook. -/
def PROMPT_TEMPLATE (product_desc : String) : String :=
  "\nYou are an expert social media content creator.\nYour task is to create a different promotion message with the following \nProduct Description :\n------\n"
    ++ product_desc
    ++ "\n------\nThe output promotion message should have the following :\nTitle: a powerful, short message that dipict what this product is about \nMessage: be creative for the promotion message, but make it short and ready for social media feeds, under 100 words.\nTags: the hash tag human will nomally use in social media\n\nGive me the final post, do not have \"Title:\", \"Message:\", \"Tags:\" in it.\nBegin!\n"

/-- The exact request `generate_post` passes to
`client.chat.completions.create`. -/
def chatRequest (description : String) : ChatRequest :=
  { model := "gpt-4o",
    messages :=
      [ { role := "system", content := "You are a helpful social media content creator." },
        { role := "user", content := PROMPT_TEMPLATE description } ] }

/-! ## `generate_post` -/

/-- `generate_post(description)`: returns the `(text, span_id)` pair the
Python function returns (`span_id = None` on the exception path) together
with the final state of the span this call opened.  The `try` block catches
any exception of the completion call (and of the `choices[0]` access, which
raises `IndexError` on an empty list) and substitutes the error text. -/
def generate_post (env : GenEnv) (description : String) :
    (String × Option String) × SpanRecord :=
  let span0 : SpanRecord :=
    { name := "Social media post",
      creationAttributes := [(OPENINFERENCE_SPAN_KIND, "CHAIN")],
      setAttributes := [] }
  let span1 : SpanRecord :=
    { span0 with setAttributes := span0.setAttributes ++ [(INPUT_VALUE, description)] }
  match env.create (chatRequest description) with
  | Except.error e => (("Error generating post: " ++ e, none), span1)
  | Except.ok response =>
    match response.choices with
    | [] => (("Error generating post: list index out of range", none), span1)
    | choice :: _ =>
      let output_content := choice.message.content
      let span2 : SpanRecord :=
        { span1 with setAttributes := span1.setAttributes ++ [(OUTPUT_VALUE, output_content)] }
      ((output_content, some (format016x env.span_id_val)), span2)

/-! ## `send_feedback_to_phoenix` -/

/-- The `result` object of an annotation record. -/
structure AnnotationResult where
  label : String
  score : Nat
  explanation : String
deriving DecidableEq, Repr, Inhabited

/-- One record of the `data` list of the annotation payload. -/
structure AnnotationRecord where
  span_id : String
  name : String
  annotator_kind : String
  result : AnnotationResult
  metadata : List (String × String)
deriving DecidableEq, Repr, Inhabited

/-- The JSON body POSTed to the annotation endpoint. -/
structure AnnotationPayload where
  data : List AnnotationRecord
deriving DecidableEq, Repr, Inhabited

/-- The URL `send_feedback_to_phoenix` POSTs to. -/
def annotationEndpoint : String := "http://localhost:6006/v1/span_annotations?sync=false"

/-- The `annotation_payload` dict built by `send_feedback_to_phoenix`. -/
def annotation_payload (span_id feedback_type : String) : AnnotationPayload :=
  let label := if feedback_type = "like" then "👍" else "👎"
  let score := if feedback_type = "like" then 1 else 0
  { data :=
      [ { span_id := span_id,
          name := "user feedback",
          annotator_kind := "HUMAN",
          result :=
            { label := label,
              score := score,
              explanation := "User provided " ++ feedback_type ++ " feedback" },
          metadata := [] } ] }

/-- The HTTP transport: given the URL and the JSON body, either a response
status code (`Except.ok`) or a raised exception (`Except.error`, e.g. a
connection error or timeout). -/
def Net : Type := String → AnnotationPayload → Except Unit Nat

/-- `send_feedback_to_phoenix(span_id, feedback_type)`: returns the boolean
the Python function returns together with the list of POST requests issued
(so the network-call count is the list's length).  The Python falsiness
test `if not span_id` is true exactly for `None` and the empty string. -/
def send_feedback_to_phoenix (net : Net) (span_id : Option String)
    (feedback_type : String) : Bool × List AnnotationPayload :=
  match span_id with
  | none => (false, [])
  | some sid =>
    if sid.isEmpty then (false, [])
    else
      let payload := annotation_payload sid feedback_type
      match net annotationEndpoint payload with
      | Except.ok status => (status == 200, [payload])
      | Except.error _ => (false, [payload])

/-! ## Concrete environments used by counterexamples and witnesses -/

/-- An endpoint whose response status depends on the payload contents: it
accepts (HTTP 200) exactly the payloads carrying score 1 and answers 404
otherwise. -/
def scoreSensitiveNet : Net :=
  fun _ payload =>
    match payload.data with
    | record :: _ => Except.ok (if record.result.score = 1 then 200 else 404)
    | [] => Except.ok 404

/-- An environment whose completion call succeeds with an empty content
string. -/
def emptyContentEnv : GenEnv :=
  { create := fun _ => Except.ok { choices := [{ message := { content := "" } }] },
    span_id_val := 1 }

/-- An environment whose completion call succeeds with the spec's mock
content and whose span identifier is the spec's mock `abc123abc123abcd`. -/
def mockOkEnv : GenEnv :=
  { create := fun _ => Except.ok { choices := [{ message := { content := "Great mug! #mugs" } }] },
    span_id_val := 0xabc123abc123abcd }

/-- An environment whose completion call raises, with `str(e)` equal to
"API connection error". -/
def errorEnv : GenEnv :=
  { create := fun _ => Except.error "API connection error",
    span_id_val := 5 }

/-! ## Helper lemmas -/

theorem natToHexAux_length_le (k : Nat) :
    ∀ fuel n, n < 16 ^ k → (natToHexAux fuel n).length ≤ k := by
  induction k with
  | zero =>
    intro fuel n hn
    have hn0 : n = 0 := by omega
    cases fuel with
    | zero => simp [natToHexAux]
    | succ f => simp [natToHexAux, hn0]
  | succ k ih =>
    intro fuel n hn
    cases fuel with
    | zero => simp [natToHexAux]
    | succ f =>
      by_cases h0 : n = 0
      · simp [natToHexAux, h0]
      · have hdiv : n / 16 < 16 ^ k := by
          rw [Nat.div_lt_iff_lt_mul (by norm_num : 0 < 16)]
          calc n < 16 ^ (k + 1) := hn
          _ = 16 ^ k * 16 := by ring
        have := ih f (n / 16) hdiv
        simp only [natToHexAux, h0, if_false, List.length_append, List.length_singleton]
        omega

theorem natToHexAux_mem_hexDigits :
    ∀ fuel n c, c ∈ natToHexAux fuel n → c ∈ hexDigits := by
  intro fuel
  induction fuel with
  | zero => intro n c hc; simp [natToHexAux] at hc
  | succ f ih =>
    intro n c hc
    by_cases h0 : n = 0
    · simp [natToHexAux, h0] at hc
    · simp only [natToHexAux, h0, if_false, List.mem_append, List.mem_singleton] at hc
      rcases hc with hc | hc
      · exact ih (n / 16) c hc
      · have hm : n % 16 < 16 := Nat.mod_lt _ (by norm_num)
        have key : ∀ m : Fin 16, Nat.digitChar m.val ∈ hexDigits := by decide
        have := key ⟨n % 16, hm⟩
        simpa [hc] using this

theorem format016x_length (n : Nat) (h : n < 2 ^ 64) : (format016x n).length = 16 := by
  have h16 : n < 16 ^ 16 := by norm_num at h ⊢; omega
  have hlen : (natToHex n).length ≤ 16 := natToHexAux_length_le 16 n n h16
  show (List.replicate (16 - (natToHex n).length) '0' ++ natToHex n).length = 16
  simp [List.length_append, List.length_replicate]
  omega

theorem format016x_mem (n : Nat) (c : Char) (hc : c ∈ (format016x n).data) :
    c ∈ hexDigits := by
  have hm : c ∈ List.replicate (16 - (natToHex n).length) '0' ++ natToHex n := hc
  rcases List.mem_append.mp hm with h | h
  · have : c = '0' := List.eq_of_mem_replicate h
    simp [this, hexDigits]
  · exact natToHexAux_mem_hexDigits n n c h

theorem isEmpty_false_of_ne (s : String) (h : s ≠ "") : s.isEmpty = false := by
  cases he : s.isEmpty with
  | false => rfl
  | true => exact absurd ((String.isEmpty_iff s).mp he) h

theorem generate_post_eval_ok (env : GenEnv) (description : String)
    (resp : CompletionResponse) (choice : CompletionChoice) (rest : List CompletionChoice)
    (h1 : env.create (chatRequest description) = Except.ok resp)
    (h2 : resp.choices = choice :: rest) :
    generate_post env description =
      ((choice.message.content, some (format016x env.span_id_val)),
       { name := "Social media post",
         creationAttributes := [(OPENINFERENCE_SPAN_KIND, "CHAIN")],
         setAttributes :=
           [(INPUT_VALUE, description), (OUTPUT_VALUE, choice.message.content)] }) := by
  obtain ⟨choices⟩ := resp
  replace h2 : choices = choice :: rest := h2
  subst h2
  unfold generate_post
  rw [h1]
  rfl

/-! ## Claim theorems: the feedback relay -/

/-- C1: for every feedback polarity string, the constructed payload carries
label "👍" and score 1 exactly when the polarity is the literal "like", and
label "👎" with score 0 for every other string. -/
theorem feedback_label_score_mapping (span_id feedback_type : String) :
    ((annotation_payload span_id feedback_type).data.headI.result.label,
     (annotation_payload span_id feedback_type).data.headI.result.score) =
      if feedback_type = "like" then ("👍", 1) else ("👎", 0) := by
  by_cases h : feedback_type = "like" <;> simp [annotation_payload, h]

/-- C2: with an absent (`none`) or empty identifier the relay returns
`false` and issues no POST request at all, for every polarity. -/
theorem feedback_absent_identifier_no_post (net : Net) (feedback_type : String) :
    send_feedback_to_phoenix net none feedback_type = (false, []) ∧
    send_feedback_to_phoenix net (some "") feedback_type = (false, []) :=
  ⟨rfl, rfl⟩

/-- C3: with a non-absent, non-empty identifier the relay returns `true`
exactly when the POST of the constructed payload to the annotation endpoint
yields status 200; any other status, or a raised exception, gives `false`
(the relay is a total function, so it never raises). -/
theorem feedback_success_iff_status_200 (net : Net) (sid feedback_type : String)
    (h : sid ≠ "") :
    (send_feedback_to_phoenix net (some sid) feedback_type).1 = true ↔
      net annotationEndpoint (annotation_payload sid feedback_type) = Except.ok 200 := by
  have hne : sid.isEmpty = false := isEmpty_false_of_ne sid h
  unfold send_feedback_to_phoenix
  simp only [hne, Bool.false_eq_true, if_false]
  cases hnet : net annotationEndpoint (annotation_payload sid feedback_type) with
  | ok status => simp [beq_iff_eq]
  | error e => simp

/-- C3 witness: a transport that answers 200 makes the relay succeed. -/
theorem feedback_success_iff_status_200_witness :
    ("abc123abc123abcd" : String) ≠ "" ∧
    (send_feedback_to_phoenix (fun _ _ => Except.ok 200)
      (some "abc123abc123abcd") "like").1 = true :=
  ⟨by decide,
   (feedback_success_iff_status_200 (fun _ _ => Except.ok 200)
      "abc123abc123abcd" "like" (by decide)).mpr rfl⟩

/-- C5: with a non-absent, non-empty identifier the relay POSTs exactly the
payload whose `data` list holds one record with the given span identifier,
name "user feedback", annotator kind "HUMAN", the mapped label and score,
the explanation interpolating the polarity, and empty metadata. -/
theorem feedback_payload_structure (net : Net) (sid feedback_type : String)
    (h : sid ≠ "") :
    (send_feedback_to_phoenix net (some sid) feedback_type).2 =
      [annotation_payload sid feedback_type] ∧
    (annotation_payload sid feedback_type).data =
      [ { span_id := sid,
          name := "user feedback",
          annotator_kind := "HUMAN",
          result := { label := if feedback_type = "like" then "👍" else "👎",
                      score := if feedback_type = "like" then 1 else 0,
                      explanation := "User provided " ++ feedback_type ++ " feedback" },
          metadata := [] } ] := by
  have hne : sid.isEmpty = false := isEmpty_false_of_ne sid h
  constructor
  · unfold send_feedback_to_phoenix
    simp only [hne, Bool.false_eq_true, if_false]
    cases net annotationEndpoint (annotation_payload sid feedback_type) <;> rfl
  · rfl

/-- C5 witness: the spec's mock scenario, identifier "abc123abc123abcd"
with polarity "like". -/
theorem feedback_payload_structure_witness :
    ("abc123abc123abcd" : String) ≠ "" ∧
    (send_feedback_to_phoenix (fun _ _ => Except.ok 200)
      (some "abc123abc123abcd") "like").2 =
      [annotation_payload "abc123abc123abcd" "like"] :=
  ⟨by decide,
   (feedback_payload_structure (fun _ _ => Except.ok 200)
      "abc123abc123abcd" "like" (by decide)).1⟩

/-- C10: the relay validates nothing about a non-empty identifier: for any
string it issues exactly one POST and places the identifier verbatim in the
record's `span_id` field. -/
theorem feedback_no_identifier_validation (net : Net) (s feedback_type : String)
    (h : s ≠ "") :
    (send_feedback_to_phoenix net (some s) feedback_type).2.length = 1 ∧
    (send_feedback_to_phoenix net (some s) feedback_type).2.headI.data.headI.span_id = s := by
  have hne : s.isEmpty = false := isEmpty_false_of_ne s h
  unfold send_feedback_to_phoenix
  simp only [hne, Bool.false_eq_true, if_false]
  cases net annotationEndpoint (annotation_payload s feedback_type) <;>
    simp [annotation_payload]

/-- C10 witness: the non-hex identifier "garbage" and the all-zero
identifier "0000000000000000" are both POSTed verbatim. -/
theorem feedback_no_identifier_validation_witness :
    ((send_feedback_to_phoenix (fun _ _ => Except.ok 200) (some "garbage") "like").2.length = 1 ∧
     (send_feedback_to_phoenix (fun _ _ => Except.ok 200)
        (some "garbage") "like").2.headI.data.headI.span_id = "garbage") ∧
    ((send_feedback_to_phoenix (fun _ _ => Except.ok 404)
        (some "0000000000000000") "dislike").2.length = 1 ∧
     (send_feedback_to_phoenix (fun _ _ => Except.ok 404)
        (some "0000000000000000") "dislike").2.headI.data.headI.span_id = "0000000000000000") :=
  ⟨feedback_no_identifier_validation (fun _ _ => Except.ok 200) "garbage" "like" (by decide),
   feedback_no_identifier_validation (fun _ _ => Except.ok 404) "0000000000000000" "dislike"
     (by decide)⟩

/-- C9 counterexample: against an endpoint whose response status depends on
the payload (here: 200 exactly for score-1 payloads), the same identifier
with polarities "like" and "dislike" yields different booleans, so the
returned boolean is not independent of the polarity as the claim states. -/
theorem feedback_polarity_dependent_counterexample :
    (send_feedback_to_phoenix scoreSensitiveNet (some "abc123abc123abcd") "like").1 = true ∧
    (send_feedback_to_phoenix scoreSensitiveNet (some "abc123abc123abcd") "dislike").1 = false ∧
    (send_feedback_to_phoenix scoreSensitiveNet (some "abc123abc123abcd") "like").1 ≠
      (send_feedback_to_phoenix scoreSensitiveNet (some "abc123abc123abcd") "dislike").1 := by
  refine ⟨rfl, rfl, ?_⟩
  decide

/-- C9 amended: the polarity influences the relay's boolean only through
the payload handed to the endpoint: whenever the endpoint's outcome is the
same on the payloads built for the two polarities (in particular, whenever
it ignores the payload), the booleans coincide, for every identifier
including the absent and empty one. -/
theorem feedback_polarity_independent_of_equal_responses (net : Net)
    (span_id : Option String) (p1 p2 : String)
    (h : ∀ s : String, net annotationEndpoint (annotation_payload s p1) =
          net annotationEndpoint (annotation_payload s p2)) :
    (send_feedback_to_phoenix net span_id p1).1 =
      (send_feedback_to_phoenix net span_id p2).1 := by
  match span_id with
  | none => rfl
  | some sid =>
    unfold send_feedback_to_phoenix
    cases he : sid.isEmpty with
    | true => simp [he]
    | false =>
      simp only [he, Bool.false_eq_true, if_false]
      rw [h sid]
      cases net annotationEndpoint (annotation_payload sid p2) <;> simp

/-- C9 amended witness: a payload-blind endpoint gives equal booleans for
"like" and "dislike". -/
theorem feedback_polarity_independent_witness :
    (∀ s : String, (fun (_ : String) (_ : AnnotationPayload) => Except.ok (ε := Unit) 200)
        annotationEndpoint (annotation_payload s "like") =
      (fun (_ : String) (_ : AnnotationPayload) => Except.ok (ε := Unit) 200)
        annotationEndpoint (annotation_payload s "dislike")) ∧
    (send_feedback_to_phoenix (fun _ _ => Except.ok 200) (some "abc123abc123abcd") "like").1 =
      (send_feedback_to_phoenix (fun _ _ => Except.ok 200)
        (some "abc123abc123abcd") "dislike").1 :=
  ⟨fun _ => rfl,
   feedback_polarity_independent_of_equal_responses (fun _ _ => Except.ok 200)
     (some "abc123abc123abcd") "like" "dislike" (fun _ => rfl)⟩

/-! ## Claim theorems: the post generator -/

/-- C4: if the completion call raises with message `e`, `generate_post`
returns the text "Error generating post: " followed by the stringified
exception — in particular a text beginning with "Error generating post:" —
and an absent identifier, without re-raising (the function is total). -/
theorem generate_post_error_path (env : GenEnv) (description e : String)
    (h : env.create (chatRequest description) = Except.error e) :
    (generate_post env description).1 = ("Error generating post: " ++ e, none) ∧
    ∃ rest, (generate_post env description).1.1 = "Error generating post:" ++ rest := by
  have hres : (generate_post env description).1 = ("Error generating post: " ++ e, none) := by
    unfold generate_post
    rw [h]
  refine ⟨hres, ⟨" " ++ e, ?_⟩⟩
  rw [hres]
  show "Error generating post: " ++ e = "Error generating post:" ++ (" " ++ e)
  rw [← String.append_assoc]
  congr 1

/-- C4 witness: a failing completion call with message
"API connection error". -/
theorem generate_post_error_path_witness :
    errorEnv.create (chatRequest "Blue ceramic mug, 12oz, dishwasher safe.") =
      Except.error "API connection error" ∧
    (generate_post errorEnv "Blue ceramic mug, 12oz, dishwasher safe.").1 =
      ("Error generating post: API connection error", none) :=
  ⟨rfl,
   (generate_post_error_path errorEnv "Blue ceramic mug, 12oz, dishwasher safe."
      "API connection error" rfl).1⟩

/-- C6: on a successful call (completion returns, choices non-empty) the
returned identifier is the span's 64-bit value formatted by
`format(·, '016x')`, which for every value below `2 ^ 64` is a string of
exactly 16 characters drawn from the lowercase hexadecimal digits. -/
theorem generate_post_span_id_format (env : GenEnv) (description : String)
    (resp : CompletionResponse) (choice : CompletionChoice) (rest : List CompletionChoice)
    (h1 : env.create (chatRequest description) = Except.ok resp)
    (h2 : resp.choices = choice :: rest)
    (h3 : env.span_id_val < 2 ^ 64) :
    (generate_post env description).1.2 = some (format016x env.span_id_val) ∧
    (format016x env.span_id_val).length = 16 ∧
    ∀ c ∈ (format016x env.span_id_val).data, c ∈ hexDigits := by
  refine ⟨?_, format016x_length _ h3, fun c hc => format016x_mem _ c hc⟩
  rw [generate_post_eval_ok env description resp choice rest h1 h2]

/-- C6 witness: the spec's mock span value `0xabc123abc123abcd` formats to
"abc123abc123abcd". -/
theorem generate_post_span_id_format_witness :
    mockOkEnv.span_id_val < 2 ^ 64 ∧
    (generate_post mockOkEnv "Blue ceramic mug, 12oz, dishwasher safe.").1.2 =
      some (format016x mockOkEnv.span_id_val) ∧
    (generate_post mockOkEnv "Blue ceramic mug, 12oz, dishwasher safe.").1.2 =
      some "abc123abc123abcd" :=
  ⟨by norm_num [mockOkEnv],
   (generate_post_span_id_format mockOkEnv "Blue ceramic mug, 12oz, dishwasher safe."
      _ _ _ rfl rfl (by norm_num [mockOkEnv])).1,
   by decide⟩

/-- C7 counterexample: with a non-empty description and a completion call
that does not raise but returns an empty content string, `generate_post`
takes the success path (it returns an identifier) yet its text is empty,
contradicting the claim that the success-path text is never empty. -/
theorem generate_post_empty_text_counterexample :
    ("Blue ceramic mug, 12oz, dishwasher safe." : String) ≠ "" ∧
    emptyContentEnv.create (chatRequest "Blue ceramic mug, 12oz, dishwasher safe.") =
      Except.ok { choices := [{ message := { content := "" } }] } ∧
    (generate_post emptyContentEnv "Blue ceramic mug, 12oz, dishwasher safe.").1.1 = "" ∧
    (generate_post emptyContentEnv "Blue ceramic mug, 12oz, dishwasher safe.").1.2 =
      some "0000000000000001" := by
  refine ⟨by decide, rfl, rfl, by decide⟩

/-- C7 amended: on the success path `generate_post` returns the first
completion choice's content verbatim — hence a non-empty text whenever that
content is non-empty — together with the 16-character lowercase hexadecimal
identifier. -/
theorem generate_post_success_text_verbatim (env : GenEnv) (description : String)
    (resp : CompletionResponse) (choice : CompletionChoice) (rest : List CompletionChoice)
    (h1 : env.create (chatRequest description) = Except.ok resp)
    (h2 : resp.choices = choice :: rest)
    (h3 : choice.message.content ≠ "")
    (h4 : env.span_id_val < 2 ^ 64) :
    (generate_post env description).1.1 = choice.message.content ∧
    (generate_post env description).1.1 ≠ "" ∧
    (generate_post env description).1.2 = some (format016x env.span_id_val) ∧
    (format016x env.span_id_val).length = 16 := by
  rw [generate_post_eval_ok env description resp choice rest h1 h2]
  exact ⟨rfl, h3, rfl, format016x_length _ h4⟩

/-- C7 amended witness: the mock completion "Great mug! #mugs" yields that
text and a 16-character identifier. -/
theorem generate_post_success_text_verbatim_witness :
    ("Great mug! #mugs" : String) ≠ "" ∧
    mockOkEnv.span_id_val < 2 ^ 64 ∧
    (generate_post mockOkEnv "Blue ceramic mug, 12oz, dishwasher safe.").1.1 =
      "Great mug! #mugs" ∧
    (format016x mockOkEnv.span_id_val).length = 16 :=
  ⟨by decide, by norm_num [mockOkEnv],
   (generate_post_success_text_verbatim mockOkEnv "Blue ceramic mug, 12oz, dishwasher safe."
      _ _ _ rfl rfl (by decide) (by norm_num [mockOkEnv])).1,
   (generate_post_success_text_verbatim mockOkEnv "Blue ceramic mug, 12oz, dishwasher safe."
      _ _ _ rfl rfl (by decide) (by norm_num [mockOkEnv])).2.2.2⟩

/-- C8 counterexample: on a successful generation the attributes this code
sets explicitly are three, not two: besides the input-value and
output-value attributes set on the open span, the span-kind attribute
"CHAIN" is set explicitly at span creation. -/
theorem generate_post_explicit_attributes_counterexample :
    ((generate_post mockOkEnv "Blue ceramic mug, 12oz, dishwasher safe.").2.creationAttributes ++
      (generate_post mockOkEnv "Blue ceramic mug, 12oz, dishwasher safe.").2.setAttributes) =
      [(OPENINFERENCE_SPAN_KIND, "CHAIN"),
       (INPUT_VALUE, "Blue ceramic mug, 12oz, dishwasher safe."),
       (OUTPUT_VALUE, "Great mug! #mugs")] ∧
    ((generate_post mockOkEnv "Blue ceramic mug, 12oz, dishwasher safe.").2.creationAttributes ++
      (generate_post mockOkEnv "Blue ceramic mug, 12oz, dishwasher safe.").2.setAttributes).length
      ≠ 2 ∧
    OPENINFERENCE_SPAN_KIND ≠ INPUT_VALUE ∧
    OPENINFERENCE_SPAN_KIND ≠ OUTPUT_VALUE := by
  refine ⟨rfl, by decide, by decide, by decide⟩

/-- C8 amended: on a successful generation, the `set_attribute` calls on
the open span set exactly the input-value attribute (the description) and
the output-value attribute (the returned text), in that order, and the only
further attribute set explicitly in this code is the span kind "CHAIN"
passed at span creation. -/
theorem generate_post_set_attributes_exact (env : GenEnv) (description : String)
    (resp : CompletionResponse) (choice : CompletionChoice) (rest : List CompletionChoice)
    (h1 : env.create (chatRequest description) = Except.ok resp)
    (h2 : resp.choices = choice :: rest) :
    (generate_post env description).2.setAttributes =
      [(INPUT_VALUE, description), (OUTPUT_VALUE, choice.message.content)] ∧
    (generate_post env description).2.creationAttributes =
      [(OPENINFERENCE_SPAN_KIND, "CHAIN")] ∧
    (generate_post env description).1.1 = choice.message.content := by
  rw [generate_post_eval_ok env description resp choice rest h1 h2]
  exact ⟨rfl, rfl, rfl⟩

/-- C8 amended witness: the mock successful generation sets exactly the two
attributes on the open span. -/
theorem generate_post_set_attributes_exact_witness :
    (generate_post mockOkEnv "Blue ceramic mug, 12oz, dishwasher safe.").2.setAttributes =
      [(INPUT_VALUE, "Blue ceramic mug, 12oz, dishwasher safe."),
       (OUTPUT_VALUE, "Great mug! #mugs")] ∧
    (generate_post mockOkEnv "Blue ceramic mug, 12oz, dishwasher safe.").2.creationAttributes =
      [(OPENINFERENCE_SPAN_KIND, "CHAIN")] :=
  ⟨(generate_post_set_attributes_exact mockOkEnv "Blue ceramic mug, 12oz, dishwasher safe."
      _ _ _ rfl rfl).1,
   (generate_post_set_attributes_exact mockOkEnv "Blue ceramic mug, 12oz, dishwasher safe."
      _ _ _ rfl rfl).2.1⟩

end PhoenixTutorial
